import Mathlib

/-!
Verification development for the weekly cancellation pivot dashboard
(`src/dashboard.py`).

The pipeline is embedded shallowly:

* Uploaded cells that pandas parses into timestamps are modelled as
  `Option Int` (day numbers counted from 1970-01-01 for dates, seconds of
  day for times-of-day); a failed parse (`errors="coerce"` giving
  `NaT`/`NaN`) is `none`.
* Float values (billing hours, pivot sums, percentages) are modelled as
  `ℚ`.  The one place where the code can produce a non-finite float
  (`NaN`/`±inf` from dividing by a zero grand total, line 150-152) is
  modelled as `Option ℚ` with `none` standing for the non-finite result.
* pandas column operations become `List` operations, row order preserved
  exactly as pandas preserves it (left-merge keeps left order, a pivot
  table sorts its index and columns lexicographically).
-/

/-! ### Python string semantics -/

/-- Character-list test underlying Python's `str.startswith`. -/
def listPre : List Char → List Char → Bool
  | [], _ => true
  | _ :: _, [] => false
  | a :: as, b :: bs => a == b && listPre as bs

/-- Character-list test underlying Python's `in` substring operator. -/
def listSub (n : List Char) : List Char → Bool
  | [] => listPre n []
  | c :: h => listPre n (c :: h) || listSub n h

/-- Python `needle in hay` (substring containment). -/
def hasSub (needle hay : String) : Bool := listSub needle.data hay.data

/-- Python `s.startswith(p)`. -/
def strStarts (s p : String) : Bool := listPre p.data s.data

/-- Python `str.lower()` (the inputs at issue are ASCII). -/
def pyLower (s : String) : String := String.mk (s.data.map Char.toLower)

/-- Python `str.strip()`: drop leading and trailing whitespace. -/
def pyStrip (s : String) : String :=
  String.mk (((s.data.dropWhile Char.isWhitespace).reverse.dropWhile
    Char.isWhitespace).reverse)

/-- pandas `astype(str)` on a possibly-missing text cell: a missing value
(`NaN`) renders as the string `"nan"`. -/
def pyStr : Option String → String
  | none => "nan"
  | some s => s

/-! ### Dates and the week bucket (`add_week_bucket`, lines 40-62)

Day numbers count days since 1970-01-01, which was a Thursday. -/

/-- pandas `.dt.weekday`: Monday = 0 … Sunday = 6. -/
def pyWeekday (n : Int) : Int := (n + 3) % 7

/-- `week_start = appt_date - weekday days` (line 46). -/
def weekStartD (n : Int) : Int := n - pyWeekday n

/-- Proleptic-Gregorian `(year, month, day)` of a day number, following
Howard Hinnant's `civil_from_days` algorithm.  Lean's `Int` division is
floor division for the positive divisors used here, which lets the era be
taken directly as a quotient; all remaining divisions have non-negative
operands, where floor and truncating division agree. -/
def civilFromDays (z0 : Int) : Int × Int × Int :=
  let z := z0 + 719468
  let era : Int := z / 146097
  let doe : Int := z % 146097
  let yoe : Int := (doe - doe / 1460 + doe / 36524 - doe / 146096) / 365
  let y : Int := yoe + era * 400
  let doy : Int := doe - (365 * yoe + yoe / 4 - yoe / 100)
  let mp : Int := (5 * doy + 2) / 153
  let d : Int := doy - (153 * mp + 2) / 5 + 1
  let m : Int := if mp < 10 then mp + 3 else mp - 9
  (if m ≤ 2 then y + 1 else y, m, d)

/-- Month of a day number. -/
def monthOf (n : Int) : Int := (civilFromDays n).2.1

/-- Day-of-month of a day number. -/
def dayOf (n : Int) : Int := (civilFromDays n).2.2

/-- Year of a day number. -/
def yearOf (n : Int) : Int := (civilFromDays n).1

/-- One numeric component of the label, as `astype(str)` renders it.
`Series.dt.month/.day/.year` on a datetime column is integer-typed when
the column has no `NaT`, and float64 (so `str` appends `".0"`) when some
entry is `NaT`; the flag records whether the whole column has a `NaT`. -/
def numComp (hasNaT : Bool) (n : Int) : String :=
  toString n ++ (if hasNaT then ".0" else "")

/-- `"{month}/{day}/{year}"` of one end of the week; a `NaT` week start
renders as `"nan/nan/nan"` because each float component prints `"nan"`. -/
def dateMDY (hasNaT : Bool) : Option Int → String
  | none => "nan" ++ "/" ++ "nan" ++ "/" ++ "nan"
  | some z =>
      numComp hasNaT (monthOf z) ++ "/" ++ numComp hasNaT (dayOf z) ++ "/" ++
        numComp hasNaT (yearOf z)

/-- The week label of one appointment date (lines 49-61):
`week_start` formatted, `" - "`, `week_start + 6` formatted. -/
def weekLabelIn (hasNaT : Bool) (d : Option Int) : String :=
  dateMDY hasNaT (d.map weekStartD) ++ " - " ++
    dateMDY hasNaT (d.map (fun n => weekStartD n + 6))

/-- `add_week_bucket` (lines 40-62): the whole appointment-date column is
turned into week labels at once; the float promotion triggered by any
`NaT` in the column affects every label. -/
def add_week_bucket (dates : List (Option Int)) : List String :=
  dates.map (weekLabelIn (dates.any (fun d => d.isNone)))

/-! ### Aloha rows, derived fields (lines 21-86, 368-374) -/

/-- One normalized appointment row (after `normalize_columns` and
`normalize_aloha`). -/
structure AlohaRow where
  apptDate : Option Int
  dob : Option Int
  startTod : Option Int
  endTod : Option Int
  billingHours : Option ℚ
  completed : Option String
  apptStatus : Option String
  insuredId : Option String
deriving DecidableEq

/-- `start_dt` (lines 27-30): the date string concatenated with the
start-time string parses exactly when both parts do, giving midnight of
the appointment date plus the time of day. -/
def start_dt (a : AlohaRow) : Option Int :=
  match a.apptDate, a.startTod with
  | some d, some t => some (d * 86400 + t)
  | _, _ => none

/-- `end_dt` (lines 31-34): same construction with the end time. -/
def end_dt (a : AlohaRow) : Option Int :=
  match a.apptDate, a.endTod with
  | some d, some t => some (d * 86400 + t)
  | _, _ => none

/-- `derive_billing_hours` (lines 65-73): missing billed hours are filled
with `(end_dt - start_dt).total_seconds() / 3600`; if either timestamp is
`NaT` the difference is `NaT` and the value stays missing. -/
def derive_billing_hours (a : AlohaRow) : Option ℚ :=
  match a.billingHours with
  | some h => some h
  | none =>
      match start_dt a, end_dt a with
      | some s, some e => some (((e - s : Int) : ℚ) / 3600)
      | _, _ => none

/-- `completed_flag` (lines 368-374): `astype(str).str.strip().str.lower()`
then strict comparison with `"yes"`. -/
def completed_flag (raw : Option String) : String :=
  if pyLower (pyStrip (pyStr raw)) = "yes" then "Yes" else "(blank)"

/-- `classify_cancel_bucket` (lines 76-86), with `s = str(status).lower()`
inlined as `pyLower (pyStr status)`. -/
def classify_cancel_bucket (status : Option String) : String :=
  if hasSub "no show" (pyLower (pyStr status)) ||
      hasSub "last minute" (pyLower (pyStr status)) then
    "Last Minute Client Cancel/No Show"
  else if hasSub "client" (pyLower (pyStr status)) then "Client Cancellation"
  else if hasSub "staff" (pyLower (pyStr status)) then "Staff Cancellation"
  else if hasSub "cancel" (pyLower (pyStr status)) then "Other Cancellation"
  else "Active"

/-- An appointment row with its derived columns (week label, filled
billing hours, completion flag), as the frame looks at line 377. -/
structure Enriched where
  base : AlohaRow
  week : String
  hours : Option ℚ
  flag : String
deriving DecidableEq

/-- Derivation of one row, given whether the date column has a `NaT`. -/
def enrichOne (hasNaT : Bool) (a : AlohaRow) : Enriched :=
  { base := a, week := weekLabelIn hasNaT a.apptDate,
    hours := derive_billing_hours a, flag := completed_flag a.completed }

/-- Lines 363-374: normalize, week-bucket, fill billing hours, flag. -/
def enrichAloha (alohas : List AlohaRow) : List Enriched :=
  alohas.map (enrichOne (alohas.any (fun a => a.apptDate.isNone)))

/-! ### Identity resolution (`merge_case_coordinator`, lines 89-112) -/

/-- One normalized Zoho roster row. -/
structure ZohoRow where
  medicaidId : Option String
  dobZ : Option Int
  coordName : Option String
deriving DecidableEq

/-- Roster rows whose `medicaid id` equals the appointment's `insured id`.
pandas `merge` key equality also matches a missing key with a missing
key, hence plain `Option` equality. -/
def zMatches (z : List ZohoRow) (a : Enriched) : List ZohoRow :=
  z.filter (fun r => r.medicaidId == a.base.insuredId)

/-- An appointment row after the merge: the Aloha columns plus the
`case coordinator name` column. -/
structure Merged where
  e : Enriched
  coord : Option String
deriving DecidableEq

/-- The primary left join (lines 95-100) restricted to one left row: one
output row per matching roster row, or a single row with a missing
coordinator when nothing matches. -/
def primaryJoin (z : List ZohoRow) (a : Enriched) : List Merged :=
  match zMatches z a with
  | [] => [{ e := a, coord := none }]
  | m :: ms => (m :: ms).map (fun r => { e := a, coord := r.coordName })

/-- One step of building the DOB index: `dropna()` keeps only rows with
both a DOB and a coordinator, `drop_duplicates("dob")` keeps the first
row per distinct DOB. -/
def dobAdd (acc : List (Int × String)) (r : ZohoRow) : List (Int × String) :=
  match r.dobZ, r.coordName with
  | some d, some c => if acc.any (fun p => p.1 == d) then acc else acc ++ [(d, c)]
  | _, _ => acc

/-- `dob_lookup` (lines 104-109). -/
def dob_lookup (z : List ZohoRow) : List (Int × String) := z.foldl dobAdd []

/-- `Series.map(dob_lookup)`: a missing DOB, or one absent from the
index, maps to a missing coordinator. -/
def lookupDob (tbl : List (Int × String)) : Option Int → Option String
  | none => none
  | some d => (tbl.find? (fun p => p.1 == d)).map Prod.snd

/-- Line 110: only rows still missing a coordinator receive the DOB
fallback. -/
def applyFallback (tbl : List (Int × String)) (m : Merged) : Merged :=
  match m.coord with
  | some _ => m
  | none => { m with coord := lookupDob tbl m.e.base.dob }

/-- `merge_case_coordinator` (lines 89-112). -/
def merge_case_coordinator (alohas : List Enriched) (z : List ZohoRow) :
    List Merged :=
  (alohas.flatMap (primaryJoin z)).map (applyFallback (dob_lookup z))

/-! ### The pivot (`build_weekly_pivot`, lines 115-154) -/

/-- One fully enriched appointment row as fed to `pd.pivot_table`. -/
structure Row where
  week : String
  coord : Option String
  flag : String
  bucket : String
  hours : Option ℚ
deriving DecidableEq

/-- Line 380 plus the merge output: the pivot input columns. -/
def toRow (m : Merged) : Row :=
  { week := m.e.week, coord := m.coord, flag := m.e.flag,
    bucket := classify_cancel_bucket m.e.base.apptStatus, hours := m.e.hours }

/-- The `(week, case coordinator name)` index key of a row.  pandas
`pivot_table` groups with `groupby`, which by default drops every row
whose index key is `NaN`; a missing coordinator therefore yields no key. -/
def rowKey (r : Row) : Option (String × String) :=
  match r.coord with
  | some c => some (r.week, c)
  | none => none

/-- The input rows aggregated into the pivot row of key `k`. -/
def groupRows (rows : List Row) (k : String × String) : List Row :=
  rows.filter (fun r => rowKey r == some k)

/-- One pivot cell: the billing-hours sum over the rows of index key `k`
and column key `c`; `sum` skips missing values, and a combination with no
rows is 0 (`fill_value=0`). -/
def cell (rows : List Row) (k : String × String) (c : String × String) : ℚ :=
  (((groupRows rows k).filter (fun r => (r.flag, r.bucket) == c)).map
    (fun r => r.hours.getD 0)).sum

/-- Lexicographic order on character lists (Python / pandas string
order). -/
def listLt : List Char → List Char → Bool
  | [], [] => false
  | [], _ :: _ => true
  | _ :: _, [] => false
  | a :: as, b :: bs => decide (a < b) || (a == b && listLt as bs)

/-- String comparison used by the pivot's index sort. -/
def strLt (a b : String) : Bool := listLt a.data b.data

/-- Lexicographic comparison of `(week, coordinator)` and of
`(flag, bucket)` pairs. -/
def keyLe (a b : String × String) : Bool :=
  strLt a.1 b.1 || (a.1 == b.1 && !strLt b.2 a.2)

/-- Ordered insert for the index sort. -/
def insertKey (x : String × String) :
    List (String × String) → List (String × String)
  | [] => [x]
  | y :: ys => if keyLe x y then x :: y :: ys else y :: insertKey x ys

/-- `pivot_table` sorts its index and columns (`sort=True` default). -/
def sortKeys (l : List (String × String)) : List (String × String) :=
  l.foldr insertKey []

/-- The pivot's row index: the distinct observed `(week, coordinator)`
keys, sorted. -/
def pivotKeys (rows : List Row) : List (String × String) :=
  sortKeys (rows.filterMap rowKey).dedup

/-- The `(completed_flag, cancel_bucket)` column key contributed by a
row, provided the row survives the index (its key is not `NaN`). -/
def colPair (r : Row) : Option (String × String) :=
  match rowKey r with
  | some _ => some (r.flag, r.bucket)
  | none => none

/-- The pivot's observed column pairs, sorted (`pivot_table` keeps the
observed combinations; all-`NaN` ones are dropped before `fill_value`). -/
def colKeys (rows : List Row) : List (String × String) :=
  sortKeys (rows.filterMap colPair).dedup

/-- Line 126: flattened column name `"{flag} | {bucket}"`. -/
def flatName (c : String × String) : String := c.1 ++ " | " ++ c.2

/-- Lines 136-148: a column counts as a cancellation column when its
flattened name contains one of the four patterns.  (The filter runs after
the total columns are appended, but none of `"Yes Total"`,
`"(blank) Total"`, `"Grand Total"` contains a pattern.) -/
def isCancelName (s : String) : Bool :=
  hasSub "Client Cancellation" s || hasSub "Staff Cancellation" s ||
    hasSub "Last Minute" s || hasSub "Other Cancellation" s

/-- The flattened `(name, value)` cells of the pivot row of key `k`. -/
def cellsFor (rows : List Row) (k : String × String) : List (String × ℚ) :=
  (colKeys rows).map (fun c => (flatName c, cell rows k c))

/-- Line 129/132: sum of the columns whose name starts with `"Yes |"`
(an empty selection sums to 0, matching the `if yes_cols else 0`). -/
def sumYes (cs : List (String × ℚ)) : ℚ :=
  ((cs.filter (fun p => strStarts p.1 "Yes |")).map Prod.snd).sum

/-- Line 130/133: sum of the columns whose name starts with
`"(blank) |"`. -/
def sumBlank (cs : List (String × ℚ)) : ℚ :=
  ((cs.filter (fun p => strStarts p.1 "(blank) |")).map Prod.snd).sum

/-- Lines 136-151: sum of the cancellation columns. -/
def sumCancel (cs : List (String × ℚ)) : ℚ :=
  ((cs.filter (fun p => isCancelName p.1)).map Prod.snd).sum

/-- numpy/pandas `round`: round half to even. -/
def roundHalfEven (q : ℚ) : Int :=
  if q - ⌊q⌋ < 1/2 then ⌊q⌋
  else if 1/2 < q - ⌊q⌋ then ⌊q⌋ + 1
  else if ⌊q⌋ % 2 = 0 then ⌊q⌋ else ⌊q⌋ + 1

/-- `.round(2)` on a finite float. -/
def round2 (q : ℚ) : ℚ := ((roundHalfEven (q * 100) : ℤ) : ℚ) / 100

/-- One output row of `build_weekly_pivot` after `reset_index`. -/
structure PivotRow where
  week : String
  coord : String
  cells : List (String × ℚ)
  yesTotal : ℚ
  blankTotal : ℚ
  grandTotal : ℚ
  cancelPct : Option ℚ
deriving DecidableEq

/-- The pivot row of key `k` (lines 116-152).  The percentage divides by
`Grand Total` with no guard: a zero grand total gives float `NaN`
(or `±inf`), modelled as `none`; `.round(2)` keeps it non-finite. -/
def pivotRowFor (rows : List Row) (k : String × String) : PivotRow :=
  { week := k.1, coord := k.2, cells := cellsFor rows k,
    yesTotal := sumYes (cellsFor rows k),
    blankTotal := sumBlank (cellsFor rows k),
    grandTotal := sumYes (cellsFor rows k) + sumBlank (cellsFor rows k),
    cancelPct :=
      if sumYes (cellsFor rows k) + sumBlank (cellsFor rows k) = 0 then none
      else some (round2 (sumCancel (cellsFor rows k) /
        (sumYes (cellsFor rows k) + sumBlank (cellsFor rows k)) * 100)) }

/-- `build_weekly_pivot` (lines 115-154). -/
def build_weekly_pivot (rows : List Row) : List PivotRow :=
  (pivotKeys rows).map (pivotRowFor rows)

/-- The cancellation-bucket sum of a pivot row (the spec's
"Cancellation-Total"; the code computes it only as an intermediate). -/
def cancelTotal (p : PivotRow) : ℚ := sumCancel p.cells

/-- The column list of the frame returned by `build_weekly_pivot`:
`reset_index` puts the two key columns first, then the flattened cells in
insertion order, then the four appended columns. -/
def pivotColumns (rows : List Row) : List String :=
  ["week", "case coordinator name"] ++ (colKeys rows).map flatName ++
    ["Yes Total", "(blank) Total", "Grand Total", "Cancellation Percentage"]

/-- The numeric value of a named column in a pivot row (`none` for a
non-finite percentage or an unknown name). -/
def pivotField (p : PivotRow) (name : String) : Option ℚ :=
  if name = "Yes Total" then some p.yesTotal
  else if name = "(blank) Total" then some p.blankTotal
  else if name = "Grand Total" then some p.grandTotal
  else if name = "Cancellation Percentage" then p.cancelPct
  else (p.cells.find? (fun q => q.1 == name)).map Prod.snd

/-- Lines 359-383 up to the pivot input: normalize and enrich the Aloha
upload, merge the roster, classify the status. -/
def pipelineRows (alohas : List AlohaRow) (z : List ZohoRow) : List Row :=
  (merge_case_coordinator (enrichAloha alohas) z).map toRow

/-- The whole report pipeline: uploads to pivot rows. -/
def pipeline (alohas : List AlohaRow) (z : List ZohoRow) : List PivotRow :=
  build_weekly_pivot (pipelineRows alohas z)

/-- The synthetic HTML grand-total row's cancellation percentage
(lines 193-209): recomputed from the summed totals, and defined as 0 when
the summed grand total is 0 (`if grand_total else 0`). -/
def htmlGrandPct (ps : List PivotRow) : ℚ :=
  if (ps.map (fun p => p.grandTotal)).sum = 0 then 0
  else (ps.map cancelTotal).sum / (ps.map (fun p => p.grandTotal)).sum * 100

/-! ### Concrete inputs used by counterexamples and witnesses -/

/-- An appointment (Monday 2025-01-06, 09:00-10:30) whose insured id and
date of birth both miss the roster. -/
def orphanAloha : AlohaRow :=
  { apptDate := some 20094, dob := some 111, startTod := some 32400,
    endTod := some 37800, billingHours := some 1, completed := some "Yes",
    apptStatus := some "Active", insuredId := some "Q" }

/-- A roster row matching neither `orphanAloha`'s id nor its DOB. -/
def otherZoho : ZohoRow :=
  { medicaidId := some "ZZZ", dobZ := none, coordName := some "B" }

/-- An appointment whose billing hours are 0, so that its pivot group has
a zero grand total. -/
def zeroAloha : AlohaRow :=
  { apptDate := some 20094, dob := none, startTod := none, endTod := none,
    billingHours := some 0, completed := some "Yes",
    apptStatus := some "ok", insuredId := some "M1" }

/-- A roster row assigning coordinator `"X"` to `zeroAloha`. -/
def zeroZoho : ZohoRow :=
  { medicaidId := some "M1", dobZ := none, coordName := some "X" }

/-- Pivot input: coordinator `"A"`, completed, 2 billed hours in the week
of 2025-01-06. -/
def rowW1 : Row :=
  { week := "1/6/2025 - 1/12/2025", coord := some "A", flag := "Yes",
    bucket := "Active", hours := some 2 }

/-- Pivot input: same coordinator, completed, 7 billed hours in the next
week. -/
def rowW2 : Row :=
  { week := "1/13/2025 - 1/19/2025", coord := some "A", flag := "Yes",
    bucket := "Active", hours := some 7 }

/-- Two weeks of one coordinator: the shape in which a difference column
would have to show `7 - 2` and a null first-week entry. -/
def twoWeekRows : List Row := [rowW1, rowW2]

/-- A pivot input row with a missing coordinator (dropped by the index). -/
def nullCoordRow : Row :=
  { week := "1/6/2025 - 1/12/2025", coord := none, flag := "(blank)",
    bucket := "Active", hours := some 3 }

/-- Pivot input: one completed client cancellation of 1 billed hour. -/
def cancelRow : Row :=
  { week := "1/6/2025 - 1/12/2025", coord := some "A", flag := "Yes",
    bucket := "Client Cancellation", hours := some 1 }

/-- An appointment with missing billed hours whose end time (01:00) is
earlier in the day than its start time (23:00). -/
def overnightAloha : AlohaRow :=
  { apptDate := some 20094, dob := none, startTod := some 82800,
    endTod := some 3600, billingHours := none, completed := some "Yes",
    apptStatus := some "Active", insuredId := some "Q" }

/-- The spec's own billed-hours example: start 09:00, end 10:30, missing
billed hours. -/
def morningAloha : AlohaRow :=
  { apptDate := some 20094, dob := none, startTod := some 32400,
    endTod := some 37800, billingHours := none, completed := some "Yes",
    apptStatus := some "Active", insuredId := some "Q" }

/-- An appointment whose date failed to parse (`NaT`), matched to a
coordinator through the roster. -/
def natAloha : AlohaRow :=
  { apptDate := none, dob := none, startTod := some 32400,
    endTod := some 37800, billingHours := some 2, completed := some "Yes",
    apptStatus := some "ok", insuredId := some "M1" }

/-- The pivot-input row produced for `natAloha`. -/
def natRow : Row :=
  { week := "nan/nan/nan - nan/nan/nan", coord := some "X", flag := "Yes",
    bucket := "Active", hours := some 2 }

/-- A date column with one parseable date and one `NaT`. -/
def mixedDates : List (Option Int) := [some 20094, none]

/-- A date column of two parseable dates in the same Monday-Sunday week
(Monday 2025-01-06 and Sunday 2025-01-12). -/
def cleanDates : List (Option Int) := [some 20094, some 20100]

/-- An enriched appointment whose insured id is `"A"` and whose DOB is
100. -/
def idAEnriched : Enriched :=
  { base := { apptDate := some 20094, dob := some 100, startTod := none,
              endTod := none, billingHours := some 1,
              completed := some "Yes", apptStatus := some "ok",
              insuredId := some "A" },
    week := "1/6/2025 - 1/12/2025", hours := some 1, flag := "Yes" }

/-- A roster row whose medicaid id matches `idAEnriched` but whose
coordinator name is missing. -/
def zohoIdANoCoord : ZohoRow :=
  { medicaidId := some "A", dobZ := none, coordName := none }

/-- A roster row for a different client (id `"B"`) sharing DOB 100, with
coordinator `"X"`. -/
def zohoIdBDob100 : ZohoRow :=
  { medicaidId := some "B", dobZ := some 100, coordName := some "X" }

/-- An enriched appointment with insured id `"M"` and 2 billed hours. -/
def dupEnriched : Enriched :=
  { base := { apptDate := some 20094, dob := none, startTod := none,
              endTod := none, billingHours := some 2,
              completed := some "Yes", apptStatus := some "ok",
              insuredId := some "M" },
    week := "1/6/2025 - 1/12/2025", hours := some 2, flag := "Yes" }

/-- First duplicate roster row for id `"M"`. -/
def dupZoho1 : ZohoRow :=
  { medicaidId := some "M", dobZ := none, coordName := some "X" }

/-- Second duplicate roster row for id `"M"`. -/
def dupZoho2 : ZohoRow :=
  { medicaidId := some "M", dobZ := some 7, coordName := some "X" }

/-- An enriched appointment matching `dupZoho1`/`dupZoho2`, used as the
witness for the primary-join precedence statement. -/
def witEnriched : Enriched :=
  { base := { apptDate := some 20094, dob := some 7, startTod := none,
              endTod := none, billingHours := some 1,
              completed := some "Yes", apptStatus := some "ok",
              insuredId := some "M" },
    week := "1/6/2025 - 1/12/2025", hours := some 1, flag := "Yes" }

/-- An already-merged row that keeps its coordinator. -/
def keptMerged : Merged := { e := dupEnriched, coord := some "K" }

/-- The single pivot row produced by `[cancelRow]`. -/
def cancelPivotRow : PivotRow :=
  pivotRowFor [cancelRow] ("1/6/2025 - 1/12/2025", "A")

/-! ### Helper lemmas -/

theorem str_append_empty (s : String) : s ++ "" = s := by
  cases s with
  | mk l =>
      show String.mk (l ++ []) = String.mk l
      rw [List.append_nil]

theorem numComp_false (n : Int) : numComp false n = toString n := by
  simp only [numComp, if_neg Bool.false_ne_true]
  exact str_append_empty _

theorem mem_insertKey {y x : String × String} {l : List (String × String)} :
    y ∈ insertKey x l ↔ y = x ∨ y ∈ l := by
  induction l with
  | nil => simp [insertKey]
  | cons a l ih =>
      by_cases h : keyLe x a = true
      · simp [insertKey, h]
      · simp only [insertKey, if_neg h, List.mem_cons, ih]
        tauto

theorem mem_sortKeys {y : String × String} {l : List (String × String)} :
    y ∈ sortKeys l ↔ y ∈ l := by
  induction l with
  | nil => simp [sortKeys]
  | cons a l ih =>
      show y ∈ insertKey a (sortKeys l) ↔ _
      rw [mem_insertKey]
      simp [ih]

theorem rowKey_none {r : Row} (h : r.coord = none) : rowKey r = none := by
  simp [rowKey, h]

theorem colPair_none {r : Row} (h : r.coord = none) : colPair r = none := by
  simp [colPair, rowKey_none h]

theorem filterMap_filter_isSome {α : Type} (f : Row → Option α)
    (hf : ∀ r : Row, r.coord = none → f r = none) (rows : List Row) :
    (rows.filter (fun r => r.coord.isSome)).filterMap f = rows.filterMap f := by
  induction rows with
  | nil => rfl
  | cons r rows ih =>
      cases hc : r.coord with
      | none => simp [List.filter_cons, hc, List.filterMap_cons, hf r hc, ih]
      | some c =>
          cases hfr : f r <;>
            simp [List.filter_cons, hc, List.filterMap_cons, hfr, ih]

theorem groupRows_filter_isSome (rows : List Row) (k : String × String) :
    groupRows (rows.filter (fun r => r.coord.isSome)) k = groupRows rows k := by
  unfold groupRows
  induction rows with
  | nil => rfl
  | cons r rows ih =>
      cases hc : r.coord with
      | none =>
          have hk : (rowKey r == some k) = false := by simp [rowKey_none hc]
          simp [List.filter_cons, hc, hk, ih]
      | some c =>
          cases h : (rowKey r == some k) <;>
            simp [List.filter_cons, hc, h, ih]

theorem pivotKeys_filter_isSome (rows : List Row) :
    pivotKeys (rows.filter (fun r => r.coord.isSome)) = pivotKeys rows := by
  unfold pivotKeys
  rw [filterMap_filter_isSome rowKey (fun r h => rowKey_none h)]

theorem colKeys_filter_isSome (rows : List Row) :
    colKeys (rows.filter (fun r => r.coord.isSome)) = colKeys rows := by
  unfold colKeys
  rw [filterMap_filter_isSome colPair (fun r h => colPair_none h)]

theorem cell_filter_isSome (rows : List Row) (k c : String × String) :
    cell (rows.filter (fun r => r.coord.isSome)) k c = cell rows k c := by
  unfold cell
  rw [groupRows_filter_isSome]

theorem cellsFor_filter_isSome (rows : List Row) (k : String × String) :
    cellsFor (rows.filter (fun r => r.coord.isSome)) k = cellsFor rows k := by
  unfold cellsFor
  rw [colKeys_filter_isSome]
  exact List.map_congr_left fun c _ => by rw [cell_filter_isSome]

theorem mem_groupRows {r : Row} {rows : List Row} {k : String × String}
    (h : r ∈ groupRows rows k) : r ∈ rows := by
  unfold groupRows at h
  exact (List.mem_filter.mp h).1

theorem cell_nonneg (rows : List Row)
    (hpos : ∀ r ∈ rows, 0 ≤ r.hours.getD 0) (k c : String × String) :
    0 ≤ cell rows k c := by
  unfold cell
  apply List.sum_nonneg
  intro x hx
  rw [List.mem_map] at hx
  obtain ⟨r, hr, rfl⟩ := hx
  exact hpos r (mem_groupRows (List.mem_filter.mp hr).1)

theorem colKeys_flag (rows : List Row)
    (hflag : ∀ r ∈ rows, r.flag = "Yes" ∨ r.flag = "(blank)") :
    ∀ c ∈ colKeys rows, c.1 = "Yes" ∨ c.1 = "(blank)" := by
  intro c hc
  rw [colKeys, mem_sortKeys, List.mem_dedup, List.mem_filterMap] at hc
  obtain ⟨r, hr, hcp⟩ := hc
  unfold colPair at hcp
  cases hk : rowKey r with
  | none => rw [hk] at hcp; cases hcp
  | some k0 =>
      rw [hk] at hcp
      simp only [Option.some.injEq] at hcp
      rw [← hcp]
      exact hflag r hr

theorem listPre_append (p t : List Char) : listPre p (p ++ t) = true := by
  induction p with
  | nil => rfl
  | cons a as ih => simp [listPre, ih]

theorem strStarts_mk_append (p t : List Char) :
    strStarts (String.mk (p ++ t)) (String.mk p) = true :=
  listPre_append p t

theorem strStarts_yes (b : String) :
    strStarts (flatName ("Yes", b)) "Yes |" = true := by
  cases b with
  | mk l => exact strStarts_mk_append ['Y', 'e', 's', ' ', '|'] (' ' :: l)

theorem strStarts_blank (b : String) :
    strStarts (flatName ("(blank)", b)) "(blank) |" = true := by
  cases b with
  | mk l =>
      exact strStarts_mk_append
        ['(', 'b', 'l', 'a', 'n', 'k', ')', ' ', '|'] (' ' :: l)

theorem sumCancel_le (cs : List (String × ℚ)) (hpos : ∀ p ∈ cs, 0 ≤ p.2)
    (hname : ∀ p ∈ cs, strStarts p.1 "Yes |" = true ∨
      strStarts p.1 "(blank) |" = true) :
    sumCancel cs ≤ sumYes cs + sumBlank cs := by
  induction cs with
  | nil => simp [sumCancel, sumYes, sumBlank]
  | cons p cs ih =>
      have hpos' : ∀ q ∈ cs, 0 ≤ q.2 :=
        fun q hq => hpos q (List.mem_cons_of_mem _ hq)
      have hname' : ∀ q ∈ cs, strStarts q.1 "Yes |" = true ∨
          strStarts q.1 "(blank) |" = true :=
        fun q hq => hname q (List.mem_cons_of_mem _ hq)
      have hp : 0 ≤ p.2 := hpos p (List.mem_cons_self _ _)
      have ihh := ih hpos' hname'
      have hn := hname p (List.mem_cons_self _ _)
      unfold sumCancel sumYes sumBlank at ihh ⊢
      rw [List.filter_cons, List.filter_cons, List.filter_cons]
      cases hcn : isCancelName p.1 <;>
        cases hyn : strStarts p.1 "Yes |" <;>
          cases hbn : strStarts p.1 "(blank) |" <;>
            simp only [hyn, hbn, Bool.false_eq_true, if_false, if_true,
              List.map_cons, List.sum_cons, false_or, or_false] at hn ⊢ <;>
              linarith

theorem sumCancel_nonneg (cs : List (String × ℚ))
    (hpos : ∀ p ∈ cs, 0 ≤ p.2) : 0 ≤ sumCancel cs := by
  unfold sumCancel
  apply List.sum_nonneg
  intro x hx
  rw [List.mem_map] at hx
  obtain ⟨q, hq, rfl⟩ := hx
  exact hpos q (List.mem_filter.mp hq).1

theorem roundHalfEven_bounds (q : ℚ) (M : ℤ) (h0 : 0 ≤ q)
    (hM : q ≤ (M : ℚ)) : 0 ≤ roundHalfEven q ∧ roundHalfEven q ≤ M := by
  have hf0 : (0 : ℤ) ≤ ⌊q⌋ := Int.floor_nonneg.mpr h0
  have hfM : ⌊q⌋ ≤ M := by
    have h := Int.floor_le_floor hM
    rwa [Int.floor_intCast] at h
  have hup : ∀ hhalf : (1 : ℚ)/2 ≤ q - ⌊q⌋, ⌊q⌋ + 1 ≤ M := by
    intro hhalf
    rcases lt_or_eq_of_le hfM with hlt | heq
    · omega
    · exfalso
      have hcast : ((⌊q⌋ : ℤ) : ℚ) = (M : ℚ) := by exact_mod_cast heq
      linarith
  unfold roundHalfEven
  split_ifs with h1 h2 h3
  · exact ⟨hf0, hfM⟩
  · exact ⟨by omega, hup (not_lt.mp h1)⟩
  · exact ⟨hf0, hfM⟩
  · exact ⟨by omega, hup (not_lt.mp h1)⟩

theorem round2_bounds (x : ℚ) (h0 : 0 ≤ x) (h1 : x ≤ 100) :
    0 ≤ round2 x ∧ round2 x ≤ 100 := by
  have hb := roundHalfEven_bounds (x * 100) 10000 (by nlinarith) (by push_cast; nlinarith)
  unfold round2
  constructor
  · exact div_nonneg (by exact_mod_cast hb.1) (by norm_num)
  · rw [div_le_iff₀ (by norm_num : (0:ℚ) < 100)]
    calc ((roundHalfEven (x * 100) : ℤ) : ℚ) ≤ ((10000 : ℤ) : ℚ) := by
          exact_mod_cast hb.2
      _ = 100 * 100 := by norm_num

/-! ### Claim theorems -/

theorem cell_replicate (n : ℕ) (r : Row) (k c : String × String)
    (hk : (rowKey r == some k) = true) (hc : ((r.flag, r.bucket) == c) = true) :
    cell (List.replicate n r) k c = (n : ℚ) * r.hours.getD 0 := by
  induction n with
  | zero => simp [cell, groupRows]
  | succ n ih =>
      rw [List.replicate_succ]
      unfold cell groupRows at ih ⊢
      simp only [List.filter_cons, hk, hc, if_true, List.map_cons,
        List.sum_cons, ih]
      push_cast
      ring

/-- Claim C1, counterexample: `orphanAloha` matches the roster neither by
insured id nor by DOB, so its merged row has a null coordinator — yet
`build_weekly_pivot` returns an *empty* report for it: the row appears
under no coordinator grouping at all, where the claim asserts it is
retained under a blank/absent coordinator grouping. -/
theorem c1_counterexample :
    (pipelineRows [orphanAloha] [otherZoho]).map (fun r => r.coord) =
      [none] ∧
    pipeline [orphanAloha] [otherZoho] = [] := by
  decide

/-- Claim C1 (amended): rows whose coordinator is still null after both
joins are *dropped* by the pivot (pandas `groupby` discards `NaN` index
keys): deleting them from the input leaves the whole pivot output —
keys, cells, totals, and percentages — unchanged, so they surface under
no coordinator grouping. -/
theorem c1_amended (rows : List Row) :
    build_weekly_pivot (rows.filter (fun r => r.coord.isSome)) =
      build_weekly_pivot rows := by
  unfold build_weekly_pivot
  rw [pivotKeys_filter_isSome]
  exact List.map_congr_left fun k _ => by
    simp only [pivotRowFor, cellsFor_filter_isSome]

/-- Claim C6, counterexample: `natAloha`'s appointment date failed to
parse (`NaT`), yet it is *not* excluded from week bucketing: it receives
the literal week label `"nan/nan/nan - nan/nan/nan"` and contributes its
2 billed hours to the (week, coordinator) group
(`"nan/nan/nan - nan/nan/nan"`, `"X"`) of the pivot. -/
theorem c6_counterexample :
    (pipeline [natAloha] [zeroZoho]).map
        (fun p => (p.week, p.coord, p.grandTotal)) =
      [("nan/nan/nan - nan/nan/nan", "X", (2 : ℚ))] := by
  simp [pipeline, pipelineRows, build_weekly_pivot, pivotRowFor, enrichAloha,
    enrichOne, merge_case_coordinator, primaryJoin, zMatches, dob_lookup,
    dobAdd, applyFallback, toRow, pivotKeys, colKeys, rowKey, colPair,
    sortKeys, insertKey, cellsFor, cell, groupRows, sumYes, sumBlank,
    flatName, hasSub, listSub, listPre, strStarts, completed_flag,
    classify_cancel_bucket, pyLower, pyStrip, pyStr, derive_billing_hours,
    weekLabelIn, dateMDY, numComp, natAloha, zeroZoho]

/-- Claim C6 (amended): a row with an unparseable appointment date is
*not* excluded: its week label is the literal
`"nan/nan/nan - nan/nan/nan"` (each float component of the `NaT` week
start prints `"nan"`), and when such a row carries a coordinator it
contributes to the pivot under that junk week key. -/
theorem c6_amended (b : Bool) (a : AlohaRow) (rows : List Row) (r : Row)
    (c : String) (hd : a.apptDate = none) (hr : r ∈ rows)
    (hw : r.week = "nan/nan/nan - nan/nan/nan") (hc : r.coord = some c) :
    (enrichOne b a).week = "nan/nan/nan - nan/nan/nan" ∧
    ("nan/nan/nan - nan/nan/nan", c) ∈ pivotKeys rows := by
  constructor
  · simp only [enrichOne, hd]
    rfl
  · rw [pivotKeys, mem_sortKeys, List.mem_dedup, List.mem_filterMap]
    refine ⟨r, hr, ?_⟩
    rw [rowKey, hc, hw]

/-- Claim C6 witness: the amended statement applied to `natAloha` and its
pivot-input row, plus the end-to-end evaluation showing the junk week key
in the pivot output. -/
theorem c6_witness :
    ((enrichOne true natAloha).week = "nan/nan/nan - nan/nan/nan" ∧
      ("nan/nan/nan - nan/nan/nan", "X") ∈ pivotKeys [natRow]) ∧
    (pipeline [natAloha] [zeroZoho]).map (fun p => (p.week, p.coord)) =
      [("nan/nan/nan - nan/nan/nan", "X")] :=
  ⟨c6_amended true natAloha [natRow] natRow "X" rfl (by decide) rfl rfl,
    by decide⟩

theorem colKeys_cancelRow :
    colKeys [cancelRow] = [("Yes", "Client Cancellation")] := by
  decide

theorem cellsFor_cancelRow :
    cellsFor [cancelRow] ("1/6/2025 - 1/12/2025", "A") =
      [("Yes | Client Cancellation", 1)] := by
  unfold cellsFor
  rw [colKeys_cancelRow]
  simp [cell, groupRows, rowKey, cancelRow, flatName]

/-- Evaluation of the witness pivot row's percentage: one completed
client cancellation of 1 hour gives 1/1 × 100 = 100, rounded to 100. -/
theorem cancelPivotRow_pct : cancelPivotRow.cancelPct = some 100 := by
  have hy : strStarts "Yes | Client Cancellation" "Yes |" = true := by decide
  have hb : strStarts "Yes | Client Cancellation" "(blank) |" = false := by
    decide
  have hc : isCancelName "Yes | Client Cancellation" = true := by decide
  show (if sumYes (cellsFor [cancelRow] ("1/6/2025 - 1/12/2025", "A")) +
      sumBlank (cellsFor [cancelRow] ("1/6/2025 - 1/12/2025", "A")) = 0
    then (none : Option ℚ)
    else some (round2 (sumCancel
      (cellsFor [cancelRow] ("1/6/2025 - 1/12/2025", "A")) /
      (sumYes (cellsFor [cancelRow] ("1/6/2025 - 1/12/2025", "A")) +
        sumBlank (cellsFor [cancelRow] ("1/6/2025 - 1/12/2025", "A"))) *
        100))) = some 100
  rw [cellsFor_cancelRow]
  norm_num [sumYes, sumBlank, sumCancel, hy, hb, hc, List.filter_cons,
    round2, roundHalfEven]

/-- Membership of the witness pivot row in the pivot output. -/
theorem cancelPivotRow_mem :
    cancelPivotRow ∈ build_weekly_pivot [cancelRow] := by
  simp [cancelPivotRow, build_weekly_pivot, pivotKeys, rowKey, cancelRow,
    sortKeys, insertKey]

/-- Claim C2, counterexample: `zeroAloha` bills 0 hours, so its pivot row
has Grand Total 0; the percentage `0/0 × 100` is float `NaN` (modelled
`none`), not the claimed 0 — the unguarded division at lines 150-152 does
produce a non-finite value. -/
theorem c2_counterexample :
    (pipeline [zeroAloha] [zeroZoho]).map
        (fun p => (p.grandTotal, p.cancelPct)) =
      [((0 : ℚ), (none : Option ℚ))] := by
  simp [pipeline, pipelineRows, build_weekly_pivot, pivotRowFor, enrichAloha,
    enrichOne, merge_case_coordinator, primaryJoin, zMatches, dob_lookup,
    dobAdd, applyFallback, toRow, pivotKeys, colKeys, rowKey, colPair,
    sortKeys, insertKey, cellsFor, cell, groupRows, sumYes, sumBlank,
    flatName, hasSub, listSub, listPre, strStarts, completed_flag,
    classify_cancel_bucket, pyLower, pyStrip, pyStr, derive_billing_hours,
    weekLabelIn, dateMDY, numComp, weekStartD, pyWeekday, civilFromDays,
    monthOf, dayOf, yearOf, zeroAloha, zeroZoho]

/-- Claim C2 (amended): for every pivot row, when Grand Total is positive
and the aggregated hours are non-negative the Cancellation Percentage is
`round(cancel-sum / Grand-Total × 100, 2)` and lies in [0, 100]; but when
Grand Total is 0 the per-row value is float `NaN`/`∞` (modelled `none`),
not 0 — only the synthetic HTML grand-total row substitutes 0.  The
computation never raises. -/
theorem c2_pct_behavior (rows : List Row) (p : PivotRow)
    (ps : List PivotRow) (hp : p ∈ build_weekly_pivot rows)
    (hflag : ∀ r ∈ rows, r.flag = "Yes" ∨ r.flag = "(blank)")
    (hpos : ∀ r ∈ rows, 0 ≤ r.hours.getD 0)
    (hz : (ps.map (fun q => q.grandTotal)).sum = 0) :
    (p.grandTotal = 0 → p.cancelPct = none) ∧
    (0 < p.grandTotal →
      p.cancelPct = some (round2 (cancelTotal p / p.grandTotal * 100)) ∧
      0 ≤ round2 (cancelTotal p / p.grandTotal * 100) ∧
      round2 (cancelTotal p / p.grandTotal * 100) ≤ 100) ∧
    htmlGrandPct ps = 0 := by
  unfold build_weekly_pivot at hp
  obtain ⟨k, hk, rfl⟩ := List.mem_map.mp hp
  have hcs_pos : ∀ q ∈ cellsFor rows k, 0 ≤ q.2 := by
    intro q hq
    rw [cellsFor, List.mem_map] at hq
    obtain ⟨c, hc, rfl⟩ := hq
    exact cell_nonneg rows hpos k c
  have hcs_name : ∀ q ∈ cellsFor rows k,
      strStarts q.1 "Yes |" = true ∨ strStarts q.1 "(blank) |" = true := by
    intro q hq
    rw [cellsFor, List.mem_map] at hq
    obtain ⟨c, hc, rfl⟩ := hq
    obtain ⟨c1, c2⟩ := c
    rcases colKeys_flag rows hflag _ hc with h | h
    · have h1 : c1 = "Yes" := h
      subst h1
      exact Or.inl (strStarts_yes c2)
    · have h1 : c1 = "(blank)" := h
      subst h1
      exact Or.inr (strStarts_blank c2)
  refine ⟨?_, ?_, ?_⟩
  · intro h
    have h0 : sumYes (cellsFor rows k) + sumBlank (cellsFor rows k) = 0 := h
    show (if sumYes (cellsFor rows k) + sumBlank (cellsFor rows k) = 0
      then (none : Option ℚ)
      else some (round2 (sumCancel (cellsFor rows k) /
        (sumYes (cellsFor rows k) + sumBlank (cellsFor rows k)) * 100))) =
        none
    rw [if_pos h0]
  · intro h
    have hgt0 : 0 < sumYes (cellsFor rows k) + sumBlank (cellsFor rows k) := h
    have hne : ¬ sumYes (cellsFor rows k) + sumBlank (cellsFor rows k) = 0 :=
      ne_of_gt hgt0
    have hpct : (pivotRowFor rows k).cancelPct =
        some (round2 (sumCancel (cellsFor rows k) /
          (sumYes (cellsFor rows k) + sumBlank (cellsFor rows k)) * 100)) := by
      show (if sumYes (cellsFor rows k) + sumBlank (cellsFor rows k) = 0
        then (none : Option ℚ)
        else some (round2 (sumCancel (cellsFor rows k) /
          (sumYes (cellsFor rows k) + sumBlank (cellsFor rows k)) * 100))) =
          _
      rw [if_neg hne]
    have hc0 : 0 ≤ sumCancel (cellsFor rows k) :=
      sumCancel_nonneg _ hcs_pos
    have hcle : sumCancel (cellsFor rows k) ≤
        sumYes (cellsFor rows k) + sumBlank (cellsFor rows k) :=
      sumCancel_le _ hcs_pos hcs_name
    have hx0 : 0 ≤ sumCancel (cellsFor rows k) /
        (sumYes (cellsFor rows k) + sumBlank (cellsFor rows k)) * 100 :=
      mul_nonneg (div_nonneg hc0 hgt0.le) (by norm_num)
    have hx100 : sumCancel (cellsFor rows k) /
        (sumYes (cellsFor rows k) + sumBlank (cellsFor rows k)) * 100 ≤
          100 := by
      have hdle : sumCancel (cellsFor rows k) /
          (sumYes (cellsFor rows k) + sumBlank (cellsFor rows k)) ≤ 1 := by
        rw [div_le_one hgt0]
        exact hcle
      nlinarith
    have hb := round2_bounds _ hx0 hx100
    have ect : cancelTotal (pivotRowFor rows k) =
        sumCancel (cellsFor rows k) := rfl
    have egt : (pivotRowFor rows k).grandTotal =
        sumYes (cellsFor rows k) + sumBlank (cellsFor rows k) := rfl
    rw [ect, egt]
    exact ⟨hpct, hb.1, hb.2⟩
  · unfold htmlGrandPct
    rw [if_pos hz]

/-- Claim C2 witness: the single completed client cancellation of 1 hour:
its pivot row has Grand Total 1 > 0 and percentage exactly 100. -/
theorem c2_witness :
    cancelPivotRow ∈ build_weekly_pivot [cancelRow] ∧
    ((cancelPivotRow.grandTotal = 0 → cancelPivotRow.cancelPct = none) ∧
      (0 < cancelPivotRow.grandTotal →
        cancelPivotRow.cancelPct =
          some (round2 (cancelTotal cancelPivotRow /
            cancelPivotRow.grandTotal * 100)) ∧
        0 ≤ round2 (cancelTotal cancelPivotRow /
          cancelPivotRow.grandTotal * 100) ∧
        round2 (cancelTotal cancelPivotRow /
          cancelPivotRow.grandTotal * 100) ≤ 100) ∧
      htmlGrandPct [] = 0) ∧
    cancelPivotRow.cancelPct = some 100 :=
  ⟨cancelPivotRow_mem,
    c2_pct_behavior [cancelRow] cancelPivotRow [] cancelPivotRow_mem
      (by simp [cancelRow]) (by simp [cancelRow]) (by simp),
    cancelPivotRow_pct⟩

theorem pivotKeys_twoWeek : pivotKeys twoWeekRows =
    [("1/13/2025 - 1/19/2025", "A"), ("1/6/2025 - 1/12/2025", "A")] := by
  decide

theorem colKeys_twoWeek : colKeys twoWeekRows = [("Yes", "Active")] := by
  decide

theorem cellsFor_twoWeek1 :
    cellsFor twoWeekRows ("1/13/2025 - 1/19/2025", "A") =
      [("Yes | Active", 7)] := by
  unfold cellsFor
  rw [colKeys_twoWeek]
  simp [cell, groupRows, rowKey, rowW1, rowW2, twoWeekRows, flatName]

theorem cellsFor_twoWeek2 :
    cellsFor twoWeekRows ("1/6/2025 - 1/12/2025", "A") =
      [("Yes | Active", 2)] := by
  unfold cellsFor
  rw [colKeys_twoWeek]
  simp [cell, groupRows, rowKey, rowW1, rowW2, twoWeekRows, flatName]

/-- Claim C3, counterexample: one coordinator with Yes-Totals 2 then 7 in
consecutive weeks.  The pivot output is enumerated in full: its columns
are exactly the two keys, the single cell, the three totals and the
percentage — there is no difference column for Yes-Total, Grand-Total or
Cancellation-Total (the code never computes differences).  No entry is
null where the claim requires the first week's difference to be null, and
no entry holds `7 − 2 = 5` where the claim requires the later week's
difference. -/
theorem c3_counterexample :
    build_weekly_pivot twoWeekRows =
      [{ week := "1/13/2025 - 1/19/2025", coord := "A",
          cells := [("Yes | Active", 7)], yesTotal := 7, blankTotal := 0,
          grandTotal := 7, cancelPct := some 0 },
        { week := "1/6/2025 - 1/12/2025", coord := "A",
          cells := [("Yes | Active", 2)], yesTotal := 2, blankTotal := 0,
          grandTotal := 2, cancelPct := some 0 }] ∧
    pivotColumns twoWeekRows =
      ["week", "case coordinator name", "Yes | Active", "Yes Total",
        "(blank) Total", "Grand Total", "Cancellation Percentage"] := by
  have hy : strStarts "Yes | Active" "Yes |" = true := by decide
  have hb : strStarts "Yes | Active" "(blank) |" = false := by decide
  have hc : isCancelName "Yes | Active" = false := by decide
  constructor
  · unfold build_weekly_pivot
    rw [pivotKeys_twoWeek]
    simp only [List.map_cons, List.map_nil, pivotRowFor, cellsFor_twoWeek1,
      cellsFor_twoWeek2]
    norm_num [sumYes, sumBlank, sumCancel, hy, hb, hc, List.filter_cons,
      round2, roundHalfEven, PivotRow.mk.injEq]
  · decide

/-- Claim C3 (amended): the pivot output has no difference columns at
all; every value of the pivot row of key `k` is a function of that key's
own group of input rows and the global column set, never of another
(previous-week) row — two inputs agreeing on the column set and on `k`'s
group produce identical pivot rows for `k`. -/
theorem c3_row_locality (rows1 rows2 : List Row) (k : String × String)
    (hcol : colKeys rows1 = colKeys rows2)
    (hgrp : groupRows rows1 k = groupRows rows2 k) :
    pivotRowFor rows1 k = pivotRowFor rows2 k := by
  have hcells : cellsFor rows1 k = cellsFor rows2 k := by
    unfold cellsFor
    rw [hcol]
    exact List.map_congr_left fun c _ => by
      unfold cell
      rw [hgrp]
  simp only [pivotRowFor, hcells]

/-- Claim C3 witness: adding a row outside the group (here one with a
null coordinator) leaves the pivot row of the first week unchanged. -/
theorem c3_witness :
    colKeys [rowW1] = colKeys [rowW1, nullCoordRow] ∧
    groupRows [rowW1] ("1/6/2025 - 1/12/2025", "A") =
      groupRows [rowW1, nullCoordRow] ("1/6/2025 - 1/12/2025", "A") ∧
    pivotRowFor [rowW1] ("1/6/2025 - 1/12/2025", "A") =
      pivotRowFor [rowW1, nullCoordRow] ("1/6/2025 - 1/12/2025", "A") :=
  ⟨by decide, by simp [groupRows, rowKey, rowW1, nullCoordRow],
    c3_row_locality [rowW1] [rowW1, nullCoordRow]
      ("1/6/2025 - 1/12/2025", "A") (by decide)
      (by simp [groupRows, rowKey, rowW1, nullCoordRow])⟩

/-- Claim C4, counterexample: the status `"Client no-show"` is written
with a hyphen, so it does not contain the substring `"no show"` (nor
`"last minute"`); rule (2) fires on `"client"` and the code returns
`"Client Cancellation"`, not `"Last Minute Client Cancel/No Show"` as the
claim asserts. -/
theorem c4_counterexample :
    classify_cancel_bucket (some "Client no-show") = "Client Cancellation" ∧
    "Client Cancellation" ≠ "Last Minute Client Cancel/No Show" := by
  decide

/-- Claim C4 (amended): classification is a total function landing in the
five buckets, with case-insensitive substring matching in the exact
priority order (1) "no show"/"last minute", (2) "client", (3) "staff",
(4) "cancel", (5) Active — but the hyphenated status `"Client no-show"`
classifies as Client Cancellation (only the spaced `"Client no show"`
reaches bucket (1)). -/
theorem c4_amended (status : Option String) :
    (classify_cancel_bucket status = "Last Minute Client Cancel/No Show" ↔
      (hasSub "no show" (pyLower (pyStr status)) ||
        hasSub "last minute" (pyLower (pyStr status))) = true) ∧
    (classify_cancel_bucket status = "Client Cancellation" ↔
      ((hasSub "no show" (pyLower (pyStr status)) ||
        hasSub "last minute" (pyLower (pyStr status))) = false ∧
        hasSub "client" (pyLower (pyStr status)) = true)) ∧
    (classify_cancel_bucket status = "Staff Cancellation" ↔
      ((hasSub "no show" (pyLower (pyStr status)) ||
        hasSub "last minute" (pyLower (pyStr status))) = false ∧
        hasSub "client" (pyLower (pyStr status)) = false ∧
        hasSub "staff" (pyLower (pyStr status)) = true)) ∧
    (classify_cancel_bucket status = "Other Cancellation" ↔
      ((hasSub "no show" (pyLower (pyStr status)) ||
        hasSub "last minute" (pyLower (pyStr status))) = false ∧
        hasSub "client" (pyLower (pyStr status)) = false ∧
        hasSub "staff" (pyLower (pyStr status)) = false ∧
        hasSub "cancel" (pyLower (pyStr status)) = true)) ∧
    (classify_cancel_bucket status = "Active" ↔
      ((hasSub "no show" (pyLower (pyStr status)) ||
        hasSub "last minute" (pyLower (pyStr status))) = false ∧
        hasSub "client" (pyLower (pyStr status)) = false ∧
        hasSub "staff" (pyLower (pyStr status)) = false ∧
        hasSub "cancel" (pyLower (pyStr status)) = false)) ∧
    classify_cancel_bucket status ∈
      ["Last Minute Client Cancel/No Show", "Client Cancellation",
        "Staff Cancellation", "Other Cancellation", "Active"] := by
  cases h1 : hasSub "no show" (pyLower (pyStr status)) <;>
    cases h2 : hasSub "last minute" (pyLower (pyStr status)) <;>
      cases h3 : hasSub "client" (pyLower (pyStr status)) <;>
        cases h4 : hasSub "staff" (pyLower (pyStr status)) <;>
          cases h5 : hasSub "cancel" (pyLower (pyStr status)) <;>
            simp [classify_cancel_bucket, h1, h2, h3, h4, h5]

/-- Claim C4 witness: the spaced status `"Client no show"` does reach
bucket (1), exercising the first disjunct of the characterization. -/
theorem c4_witness :
    (classify_cancel_bucket (some "Client no show") =
        "Last Minute Client Cancel/No Show" ↔
      (hasSub "no show" (pyLower (pyStr (some "Client no show"))) ||
        hasSub "last minute" (pyLower (pyStr (some "Client no show")))) =
        true) ∧
    classify_cancel_bucket (some "Client no show") =
      "Last Minute Client Cancel/No Show" :=
  ⟨(c4_amended (some "Client no show")).1, by decide⟩

/-- Claim C9, counterexample: `idAEnriched`'s insured id `"A"` exactly
matches the roster row `zohoIdANoCoord`, whose coordinator name is
*missing*; the claim then demands the appointment keep that (null)
coordinator regardless of DOB — but because the merged value is `NaN` the
DOB fallback fires and assigns `"X"` from `zohoIdBDob100`, a different
roster row matched by date of birth. -/
theorem c9_counterexample :
    zohoIdANoCoord.medicaidId = idAEnriched.base.insuredId ∧
    zohoIdANoCoord.coordName = none ∧
    (merge_case_coordinator [idAEnriched] [zohoIdANoCoord, zohoIdBDob100]).map
        (fun m => m.coord) = [some "X"] := by
  refine ⟨rfl, rfl, ?_⟩
  decide

/-- Claim C9 (amended): the primary join takes precedence whenever the
matched roster row's coordinator name is non-null: such an appointment is
assigned that row's coordinator regardless of its DOB.  The DOB fallback
touches only rows still lacking a coordinator after the primary join
(which includes an id-match whose roster coordinator is null), and an
appointment unmatched by both joins is retained with a null
coordinator. -/
theorem c9_amended (A : List Enriched) (z : List ZohoRow) (a : Enriched)
    (r : ZohoRow) (c c2 : String) (m : Merged) (ha : a ∈ A) :
    (r ∈ z → r.medicaidId = a.base.insuredId → r.coordName = some c →
      ({ e := a, coord := some c } : Merged) ∈ merge_case_coordinator A z) ∧
    (m.coord = some c2 → applyFallback (dob_lookup z) m = m) ∧
    (zMatches z a = [] → lookupDob (dob_lookup z) a.base.dob = none →
      ({ e := a, coord := none } : Merged) ∈ merge_case_coordinator A z) := by
  refine ⟨?_, ?_, ?_⟩
  · intro hr hid hcoord
    unfold merge_case_coordinator
    rw [List.mem_map]
    refine ⟨{ e := a, coord := some c }, ?_, rfl⟩
    rw [List.mem_flatMap]
    refine ⟨a, ha, ?_⟩
    have hmem : r ∈ zMatches z a := by
      unfold zMatches
      rw [List.mem_filter]
      refine ⟨hr, ?_⟩
      rw [hid]
      exact beq_self_eq_true _
    unfold primaryJoin
    cases hz : zMatches z a with
    | nil => rw [hz] at hmem; cases hmem
    | cons m0 ms =>
        rw [List.mem_map]
        refine ⟨r, ?_, by rw [hcoord]⟩
        rw [← hz]
        exact hmem
  · intro hm
    unfold applyFallback
    rw [hm]
  · intro hz hlk
    unfold merge_case_coordinator
    rw [List.mem_map]
    refine ⟨{ e := a, coord := none }, ?_, ?_⟩
    · rw [List.mem_flatMap]
      refine ⟨a, ha, ?_⟩
      unfold primaryJoin
      rw [hz]
      exact List.mem_cons_self _ _
    · unfold applyFallback
      simp only [hlk]

/-- Claim C9 witness: `witEnriched` matches the duplicate roster row
`dupZoho1` (coordinator `"X"`), so the merged output contains the row
with coordinator `"X"`; an already-assigned row survives the fallback;
and `idAEnriched` against the non-matching roster `[dupZoho1]` is
retained with a null coordinator. -/
theorem c9_witness :
    ({ e := witEnriched, coord := some "X" } : Merged) ∈
      merge_case_coordinator [witEnriched] [dupZoho1] ∧
    applyFallback (dob_lookup [dupZoho1]) keptMerged = keptMerged ∧
    ({ e := idAEnriched, coord := none } : Merged) ∈
      merge_case_coordinator [idAEnriched] [dupZoho1] :=
  ⟨(c9_amended [witEnriched] [dupZoho1] witEnriched dupZoho1 "X" "K"
      keptMerged (List.mem_cons_self _ _)).1 (List.mem_cons_self _ _) rfl
      rfl,
    (c9_amended [witEnriched] [dupZoho1] witEnriched dupZoho1 "X" "K"
      keptMerged (List.mem_cons_self _ _)).2.1 rfl,
    (c9_amended [idAEnriched] [dupZoho1] idAEnriched dupZoho1 "X" "K"
      keptMerged (List.mem_cons_self _ _)).2.2 (by decide) (by decide)⟩

/-- Claim C10 (confirmed): a roster with two or more rows sharing the
appointment's client identifier yields one merged row per matching roster
row — the merged table outgrows the appointment input — and the pivot
cell receiving the appointment sums its billed hours once per duplicate:
`matches × hours`. -/
theorem c10_duplicate_join (a : Enriched) (z : List ZohoRow) (c : String)
    (h : ℚ) (hmat2 : 2 ≤ (zMatches z a).length)
    (hcoord : ∀ r ∈ zMatches z a, r.coordName = some c)
    (hh : a.hours = some h) :
    (merge_case_coordinator [a] z).length = (zMatches z a).length ∧
    1 < (merge_case_coordinator [a] z).length ∧
    cell ((merge_case_coordinator [a] z).map toRow) (a.week, c)
        (a.flag, classify_cancel_bucket a.base.apptStatus) =
      ((zMatches z a).length : ℚ) * h := by
  have hrep : merge_case_coordinator [a] z =
      List.replicate (zMatches z a).length
        ({ e := a, coord := some c } : Merged) := by
    unfold merge_case_coordinator
    rw [show ([a] : List Enriched).flatMap (primaryJoin z) =
        primaryJoin z a from by
      simp [List.flatMap_cons, List.flatMap_nil]]
    have hpj : primaryJoin z a = (zMatches z a).map
        (fun r => ({ e := a, coord := r.coordName } : Merged)) := by
      unfold primaryJoin
      cases hz : zMatches z a with
      | nil => rw [hz] at hmat2; simp at hmat2
      | cons m0 ms => rfl
    rw [hpj]
    have hcst : (zMatches z a).map
        (fun r => ({ e := a, coord := r.coordName } : Merged)) =
        (zMatches z a).map (fun _ => ({ e := a, coord := some c } : Merged)) :=
      List.map_congr_left fun r hr => by rw [hcoord r hr]
    rw [hcst, List.map_const', List.map_replicate]
    rfl
  have hk : (rowKey (toRow { e := a, coord := some c }) ==
      some (a.week, c)) = true := beq_self_eq_true _
  have hc : ((( toRow ({ e := a, coord := some c } : Merged)).flag,
      (toRow ({ e := a, coord := some c } : Merged)).bucket) ==
      (a.flag, classify_cancel_bucket a.base.apptStatus)) = true :=
    beq_self_eq_true _
  refine ⟨?_, ?_, ?_⟩
  · rw [hrep, List.length_replicate]
  · rw [hrep, List.length_replicate]
    omega
  · rw [hrep, List.map_replicate]
    have := cell_replicate (zMatches z a).length
      (toRow { e := a, coord := some c }) (a.week, c)
      (a.flag, classify_cancel_bucket a.base.apptStatus) hk hc
    rw [this]
    have hget : (toRow ({ e := a, coord := some c } : Merged)).hours.getD 0 =
        h := by
      show a.hours.getD 0 = h
      rw [hh]
      rfl
    rw [hget]

/-- Claim C10 witness: `dupEnriched` (2 billed hours) against the
two duplicate roster rows for id `"M"`: the merge emits 2 rows for 1
input appointment and the pivot cell holds 2 × 2 = 4 hours. -/
theorem c10_witness :
    (zMatches [dupZoho1, dupZoho2] dupEnriched).length = 2 ∧
    ((merge_case_coordinator [dupEnriched] [dupZoho1, dupZoho2]).length =
        (zMatches [dupZoho1, dupZoho2] dupEnriched).length ∧
      1 < (merge_case_coordinator [dupEnriched] [dupZoho1, dupZoho2]).length ∧
      cell ((merge_case_coordinator [dupEnriched]
          [dupZoho1, dupZoho2]).map toRow)
          (dupEnriched.week, "X")
          (dupEnriched.flag,
            classify_cancel_bucket dupEnriched.base.apptStatus) =
        ((zMatches [dupZoho1, dupZoho2] dupEnriched).length : ℚ) * 2) :=
  ⟨by decide,
    c10_duplicate_join dupEnriched [dupZoho1, dupZoho2] "X" 2 (by decide)
      (by decide) rfl⟩

/-- Claim C8 (confirmed): the completion flag is `"Yes"` exactly when the
status text, stripped and lower-cased, is the literal `"yes"`; everything
else (including a missing or empty status) maps to `"(blank)"`, and the
documented examples behave as stated. -/
theorem c8_confirmed (raw : Option String) :
    (completed_flag raw = "Yes" ↔ pyLower (pyStrip (pyStr raw)) = "yes") ∧
    (completed_flag raw = "Yes" ∨ completed_flag raw = "(blank)") ∧
    completed_flag none = "(blank)" ∧
    completed_flag (some "") = "(blank)" ∧
    completed_flag (some "YES ") = "Yes" ∧
    completed_flag (some " yes") = "Yes" ∧
    completed_flag (some "Yes") = "Yes" ∧
    completed_flag (some "yesish") = "(blank)" := by
  refine ⟨?_, ?_, by decide, by decide, by decide, by decide, by decide,
    by decide⟩ <;>
    by_cases h : pyLower (pyStrip (pyStr raw)) = "yes" <;>
      simp [completed_flag, h]

/-- Claim C8 witness: the characterization applied to the concrete status
`" YES  "`. -/
theorem c8_witness :
    (completed_flag (some " YES  ") = "Yes" ↔
      pyLower (pyStrip (pyStr (some " YES  "))) = "yes") ∧
    completed_flag (some " YES  ") = "Yes" :=
  ⟨(c8_confirmed (some " YES  ")).1, by decide⟩

/-- Claim C5, counterexample: `overnightAloha` has missing billed hours,
start time 23:00 and end time 01:00; both timestamps are built from the
same appointment date (lines 27-34), so the fallback (lines 65-73)
computes (end − start)/3600 = −22 hours, a negative derived value, where
the claim asserts the derived value is never negative. -/
theorem c5_counterexample :
    derive_billing_hours overnightAloha = some (-22) ∧
    ¬ (0 : ℚ) ≤ -22 := by
  constructor
  · norm_num [derive_billing_hours, overnightAloha, start_dt, end_dt]
  · norm_num

/-- Claim C5 (amended): for a row with missing billed hours and both
timestamps present, the derived value is (end − start) in fractional
hours, which is non-negative exactly when the end timestamp is not before
the start; because both timestamps share the appointment date, an end
time-of-day earlier than the start time-of-day gives a negative value. -/
theorem c5_amended (a : AlohaRow) (s e : Int) (hmiss : a.billingHours = none)
    (hs : start_dt a = some s) (he : end_dt a = some e) :
    derive_billing_hours a = some (((e - s : Int) : ℚ) / 3600) ∧
    ((0 : ℚ) ≤ ((e - s : Int) : ℚ) / 3600 ↔ s ≤ e) := by
  constructor
  · simp [derive_billing_hours, hmiss, hs, he]
  · rw [le_div_iff₀ (show (0:ℚ) < 3600 by norm_num), zero_mul]
    exact_mod_cast sub_nonneg (a := e) (b := s)

/-- Claim C5 witness: the spec's own example — start 09:00, end 10:30,
missing billed hours — derives 5400 seconds / 3600 = 1.5 hours, and the
non-negativity criterion holds. -/
theorem c5_witness :
    derive_billing_hours morningAloha =
      some (((1736159400 - 1736154000 : Int) : ℚ) / 3600) ∧
    ((0 : ℚ) ≤ ((1736159400 - 1736154000 : Int) : ℚ) / 3600 ↔
      (1736154000 : Int) ≤ 1736159400) ∧
    derive_billing_hours morningAloha = some (3/2) := by
  have h := c5_amended morningAloha 1736154000 1736159400 (by decide)
    (by decide) (by decide)
  exact ⟨h.1, h.2, by norm_num [derive_billing_hours, morningAloha,
    start_dt, end_dt]⟩

/-- Claim C7, counterexample: in a column where some other appointment
date failed to parse, `.dt.month/.day/.year` are float-typed, so the
label of the parseable date 2025-01-06 renders as
`"1.0/6.0/2025.0 - 1.0/12.0/2025.0"` — not the claimed
`"1/6/2025 - 1/12/2025"` format. -/
theorem c7_counterexample :
    add_week_bucket mixedDates =
      ["1.0/6.0/2025.0 - 1.0/12.0/2025.0", "nan/nan/nan - nan/nan/nan"] ∧
    "1.0/6.0/2025.0 - 1.0/12.0/2025.0" ≠ "1/6/2025 - 1/12/2025" := by
  decide

/-- Claim C7 (amended): when every appointment date in the upload parses,
the claim holds as stated: the week starts at the date minus its
Monday-based weekday index (always a Monday), ends six days later (the
following Sunday), the label is the unpadded
`"{m}/{d}/{y} - {m}/{d}/{y}"` of those two days, and two dates in the
same Monday-Sunday week produce identical labels.  (With an unparseable
date in the column every component gains a float `".0"` suffix.) -/
theorem c7_amended (dates : List (Option Int)) (n m : Int)
    (hall : ∀ d ∈ dates, d.isSome = true)
    (hweek : (n + 3) / 7 = (m + 3) / 7) :
    add_week_bucket dates = dates.map (weekLabelIn false) ∧
    weekStartD n = n - pyWeekday n ∧
    pyWeekday (weekStartD n) = 0 ∧
    pyWeekday (weekStartD n + 6) = 6 ∧
    weekLabelIn false (some n) =
      toString (monthOf (weekStartD n)) ++ "/" ++
        toString (dayOf (weekStartD n)) ++ "/" ++
        toString (yearOf (weekStartD n)) ++ " - " ++
        (toString (monthOf (weekStartD n + 6)) ++ "/" ++
          toString (dayOf (weekStartD n + 6)) ++ "/" ++
          toString (yearOf (weekStartD n + 6))) ∧
    weekLabelIn false (some n) = weekLabelIn false (some m) := by
  have hany : dates.any (fun d => d.isNone) = false := by
    rw [List.any_eq_false]
    intro d hd
    have := hall d hd
    cases d with
    | none => simp at this
    | some v => simp
  have hws : weekStartD n = weekStartD m := by
    simp only [weekStartD, pyWeekday]
    omega
  refine ⟨?_, rfl, ?_, ?_, ?_, ?_⟩
  · rw [add_week_bucket, hany]
  · simp only [weekStartD, pyWeekday]; omega
  · simp only [weekStartD, pyWeekday]; omega
  · simp [weekLabelIn, dateMDY, numComp_false, String.append_assoc]
  · simp only [weekLabelIn, Option.map_some', hws]

/-- Claim C7 witness: Monday 2025-01-06 and Sunday 2025-01-12 lie in the
same Monday-Sunday week; on the all-parseable column `cleanDates` both
get the identical unpadded label `"1/6/2025 - 1/12/2025"`. -/
theorem c7_witness :
    (add_week_bucket cleanDates = cleanDates.map (weekLabelIn false) ∧
      weekStartD 20094 = 20094 - pyWeekday 20094 ∧
      pyWeekday (weekStartD 20094) = 0 ∧
      pyWeekday (weekStartD 20094 + 6) = 6 ∧
      weekLabelIn false (some 20094) =
        toString (monthOf (weekStartD 20094)) ++ "/" ++
          toString (dayOf (weekStartD 20094)) ++ "/" ++
          toString (yearOf (weekStartD 20094)) ++ " - " ++
          (toString (monthOf (weekStartD 20094 + 6)) ++ "/" ++
            toString (dayOf (weekStartD 20094 + 6)) ++ "/" ++
            toString (yearOf (weekStartD 20094 + 6))) ∧
      weekLabelIn false (some 20094) = weekLabelIn false (some 20100)) ∧
    add_week_bucket cleanDates =
      ["1/6/2025 - 1/12/2025", "1/6/2025 - 1/12/2025"] :=
  ⟨c7_amended cleanDates 20094 20100 (by decide) (by decide), by decide⟩
